import Mathlib

/-!
Shallow embedding of the global audio playback coordinator of this
repository (the React `AudioContext`: `useAudio`, `AudioProvider`,
`playTrack`, `pauseTrack`, `stopTrack`, `setCurrentTime` and the
`loadedmetadata` / `timeupdate` / `ended` listeners registered in
`playTrack`).

The coordinator's React state `AudioState` becomes a Lean structure with
rationals in place of JS floating point positions.  The single
`HTMLAudioElement` handle held in `audioRef` becomes an `Option AudioElem`.
An element the coordinator has dropped its handle to (replaced in
`playTrack` by a freshly created element) moves to the `released` list,
never to be mutated again; this lets the "at most one underlying resource
is producing sound" property be stated.  The browser-side event callbacks
are modelled as environment actions that run exactly the listener bodies
registered in `playTrack` (and nothing for events the code does not listen
to, such as `error`).
-/

/-- The underlying audio resource (`HTMLAudioElement`).  `url` is the
`trackUrl` it was constructed from, `trackId` the logical track it was
created for, `paused` its play/pause sub-state (`true` means not producing
sound), `time` its `currentTime`, and `metaDuration` its duration once
metadata has resolved (`none` before the `loadedmetadata` event). -/
structure AudioElem where
  url : String
  trackId : String
  paused : Bool
  time : ℚ
  metaDuration : Option ℚ
deriving DecidableEq

/-- The React state of the provider: `{currentTrack, isPlaying,
currentTime, duration}` from the source's `AudioState` interface. -/
structure AudioState where
  currentTrack : Option String
  isPlaying : Bool
  currentTime : ℚ
  duration : ℚ
deriving DecidableEq

/-- The initial `useState` value: all fields empty/zero. -/
def initialAudioState : AudioState :=
  { currentTrack := none, isPlaying := false, currentTime := 0, duration := 0 }

/-- Full coordinator state: the React state, the `audioRef` handle, and the
list of elements whose handle the coordinator has dropped (each one was
paused and rewound just before being dropped in `playTrack`). -/
structure Coord where
  audioState : AudioState
  audioRef : Option AudioElem
  released : List AudioElem
deriving DecidableEq

/-- Application start: empty state, no element ever created. -/
def initCoord : Coord :=
  { audioState := initialAudioState, audioRef := none, released := [] }

/-- The two statements `audioRef.current.pause(); audioRef.current.currentTime = 0`
run by `playTrack` on the old element (and by `stopTrack`). -/
def silenceElem (a : AudioElem) : AudioElem :=
  { a with paused := true, time := 0 }

/-- The browser-side assignment `audio.currentTime = t`: per the
HTMLMediaElement seeking algorithm the element's position is clamped to
the available range, `[0, duration]` once metadata is known. -/
def setElemTime (a : AudioElem) (t : ℚ) : AudioElem :=
  { a with time :=
      match a.metaDuration with
      | some d => max 0 (min t d)
      | none => max 0 t }

/-- The tail of `playTrack` once the same-track branch was not taken:
pause and rewind the old element if any (dropping the handle), create a
fresh element for `trackUrl` (initially at position `0`, metadata not yet
resolved), call `play()` on it, and set the React state to
`{currentTrack: trackId, isPlaying: true, currentTime: 0, duration: 0}`. -/
def startNewTrack (trackUrl trackId : String) (c : Coord) : Coord :=
  { audioState :=
      { currentTrack := some trackId, isPlaying := true,
        currentTime := 0, duration := 0 },
    audioRef := some
      { url := trackUrl, trackId := trackId, paused := false,
        time := 0, metaDuration := none },
    released :=
      match c.audioRef with
      | some a => c.released ++ [silenceElem a]
      | none => c.released }

/-- Source `playTrack(trackUrl, trackId)`: if the requested track is the current
one and an element exists, toggle (pause when playing, `play()` when
paused); otherwise start the new track. -/
def playTrack (trackUrl trackId : String) (c : Coord) : Coord :=
  match c.audioRef with
  | some a =>
      if c.audioState.currentTrack = some trackId then
        if c.audioState.isPlaying then
          { c with audioState := { c.audioState with isPlaying := false },
                   audioRef := some { a with paused := true } }
        else
          { c with audioState := { c.audioState with isPlaying := true },
                   audioRef := some { a with paused := false } }
      else startNewTrack trackUrl trackId c
  | none => startNewTrack trackUrl trackId c

/-- Source `pauseTrack()`: if an element exists, pause it and set
`isPlaying = false`; otherwise do nothing. -/
def pauseTrack (c : Coord) : Coord :=
  match c.audioRef with
  | some a =>
      { c with audioRef := some { a with paused := true },
               audioState := { c.audioState with isPlaying := false } }
  | none => c

/-- Source `stopTrack()`: if an element exists, pause it and rewind it to `0`
(the handle in `audioRef` is kept, not cleared); then reset the React
state to the empty default. -/
def stopTrack (c : Coord) : Coord :=
  { audioState :=
      { currentTrack := none, isPlaying := false,
        currentTime := 0, duration := 0 },
    audioRef :=
      match c.audioRef with
      | some a => some (silenceElem a)
      | none => none,
    released := c.released }

/-- Source `setCurrentTime(time)`: if an element exists, assign
`audioRef.current.currentTime = time` (browser clamps the element's
position) and store the raw `time` into the React state's `currentTime`;
otherwise do nothing. -/
def setCurrentTime (t : ℚ) (c : Coord) : Coord :=
  match c.audioRef with
  | some a =>
      { c with audioRef := some (setElemTime a t),
               audioState := { c.audioState with currentTime := t } }
  | none => c

/-- The `loadedmetadata` listener: the element's metadata resolves with
duration `d`, and the listener sets the state's `duration` to
`audio.duration`.  Can only fire once an element exists. -/
def onMetadataLoaded (d : ℚ) (c : Coord) : Coord :=
  match c.audioRef with
  | some a =>
      { c with audioRef := some { a with metaDuration := some d },
               audioState := { c.audioState with duration := d } }
  | none => c

/-- The `timeupdate` listener: the element's position has advanced to `t`,
and the listener sets the state's `currentTime` to `audio.currentTime`. -/
def onTimeUpdate (t : ℚ) (c : Coord) : Coord :=
  match c.audioRef with
  | some a =>
      { c with audioRef := some { a with time := t },
               audioState := { c.audioState with currentTime := t } }
  | none => c

/-- The `ended` listener: playback reached the end of the track (the
element itself is now paused) and the listener sets
`isPlaying = false, currentTime = 0` — it does not touch `currentTrack`
or `duration`. -/
def onEnded (c : Coord) : Coord :=
  match c.audioRef with
  | some a =>
      { c with audioRef := some { a with paused := true },
               audioState :=
                 { c.audioState with isPlaying := false, currentTime := 0 } }
  | none => c

/-- A browser `error` event on the element (resource failed to load or
play).  `playTrack` registers no `error` listener, so the coordinator
state is left completely unchanged. -/
def onErrorEvent (c : Coord) : Coord := c

/-- One public command or resource callback applied to the coordinator. -/
inductive Act where
  | play (trackUrl trackId : String)
  | pause
  | stop
  | seek (t : ℚ)
  | metadataLoaded (d : ℚ)
  | timeUpdate (t : ℚ)
  | ended
  | errorEvent
deriving DecidableEq

/-- Dispatch one action. -/
def step (c : Coord) : Act → Coord
  | .play u i => playTrack u i c
  | .pause => pauseTrack c
  | .stop => stopTrack c
  | .seek t => setCurrentTime t c
  | .metadataLoaded d => onMetadataLoaded d c
  | .timeUpdate t => onTimeUpdate t c
  | .ended => onEnded c
  | .errorEvent => onErrorEvent c

/-- The state after running a sequence of actions from application start. -/
def run (tr : List Act) : Coord :=
  tr.foldl step initCoord

/-- Every element the coordinator ever touched: the dropped ones plus the
current handle. -/
def allElems (c : Coord) : List AudioElem :=
  c.released ++ c.audioRef.toList

/-- The elements currently in the "producing sound" sub-state. -/
def activeElems (c : Coord) : List AudioElem :=
  (allElems c).filter (fun a => !a.paused)

/-- Every dropped element is paused (it was silenced before the handle was
dropped, and dropped elements are never mutated again). -/
def releasedSilenced (c : Coord) : Prop :=
  ∀ a ∈ c.released, a.paused = true

instance (c : Coord) : Decidable (releasedSilenced c) :=
  List.decidableBAll _ c.released

/-- Source `useAudio`: consuming the context outside a provider (`none`) throws;
inside a provider it returns the provider's context value. -/
def useAudio {α : Type} (ctx : Option α) : Except String α :=
  match ctx with
  | none => Except.error "useAudio must be used within an AudioProvider"
  | some c => Except.ok c

/-- Elements that are all paused contribute nothing to the active filter. -/
lemma filter_unpaused_nil (l : List AudioElem) (h : ∀ a ∈ l, a.paused = true) :
    l.filter (fun a => !a.paused) = [] := by
  induction l with
  | nil => rfl
  | cons x xs ih =>
      have hx : x.paused = true := h x (by simp)
      simp only [List.filter_cons, hx, Bool.not_true, Bool.false_eq_true,
        if_false, ite_false]
      exact ih (fun a ha => h a (by simp [ha]))

/-- Starting a new track silences every dropped element. -/
lemma releasedSilenced_startNewTrack (u i : String) (c : Coord)
    (h : releasedSilenced c) : releasedSilenced (startNewTrack u i c) := by
  intro a ha
  rcases hr : c.audioRef with _ | e
  · simp only [startNewTrack, hr] at ha
    exact h a ha
  · simp only [startNewTrack, hr, List.mem_append, List.mem_singleton] at ha
    rcases ha with ha | ha
    · exact h a ha
    · simp [ha, silenceElem]

/-- Every public command and every resource callback keeps all dropped
elements silenced. -/
lemma releasedSilenced_step (c : Coord) (act : Act)
    (h : releasedSilenced c) : releasedSilenced (step c act) := by
  cases act with
  | play u i =>
      rcases hr : c.audioRef with _ | e
      · simp only [step, playTrack, hr]
        exact releasedSilenced_startNewTrack u i c h
      · simp only [step, playTrack, hr]
        by_cases ht : c.audioState.currentTrack = some i
        · rw [if_pos ht]
          by_cases hp : c.audioState.isPlaying = true
          · rw [if_pos hp]; exact h
          · rw [if_neg hp]; exact h
        · rw [if_neg ht]
          exact releasedSilenced_startNewTrack u i c h
  | pause =>
      rcases hr : c.audioRef with _ | e <;>
        simp only [step, pauseTrack, hr] <;> exact h
  | stop =>
      rcases hr : c.audioRef with _ | e <;>
        simp only [step, stopTrack, hr] <;> exact h
  | seek t =>
      rcases hr : c.audioRef with _ | e <;>
        simp only [step, setCurrentTime, hr] <;> exact h
  | metadataLoaded d =>
      rcases hr : c.audioRef with _ | e <;>
        simp only [step, onMetadataLoaded, hr] <;> exact h
  | timeUpdate t =>
      rcases hr : c.audioRef with _ | e <;>
        simp only [step, onTimeUpdate, hr] <;> exact h
  | ended =>
      rcases hr : c.audioRef with _ | e <;>
        simp only [step, onEnded, hr] <;> exact h
  | errorEvent => exact h

/-- The dropped-elements-are-silenced invariant holds along every run. -/
lemma releasedSilenced_foldl (tr : List Act) :
    ∀ c : Coord, releasedSilenced c → releasedSilenced (tr.foldl step c) := by
  induction tr with
  | nil => intro c h; exact h
  | cons a tl ih =>
      intro c h
      exact ih (step c a) (releasedSilenced_step c a h)

/-- Every reachable coordinator state has all dropped elements silenced. -/
lemma releasedSilenced_run (tr : List Act) : releasedSilenced (run tr) :=
  releasedSilenced_foldl tr initCoord (by intro a ha; simp [initCoord] at ha)

/-- The invariant of claim C4 that actually holds: no active track means
not playing. -/
def idleNotPlaying (c : Coord) : Prop :=
  c.audioState.currentTrack = none → c.audioState.isPlaying = false

/-- Every public command and every resource callback preserves
`idleNotPlaying`. -/
lemma idleNotPlaying_step (c : Coord) (act : Act)
    (h : idleNotPlaying c) : idleNotPlaying (step c act) := by
  cases act with
  | play u i =>
      rcases hr : c.audioRef with _ | e
      · intro hn
        simp only [step, playTrack, hr, startNewTrack] at hn
        exact absurd hn (Option.some_ne_none i)
      · simp only [step, playTrack, hr]
        by_cases ht : c.audioState.currentTrack = some i
        · rw [if_pos ht]
          by_cases hp : c.audioState.isPlaying = true
          · rw [if_pos hp]; intro _; rfl
          · rw [if_neg hp]
            intro hn
            rw [show ({ c with
                audioState := { c.audioState with isPlaying := true },
                audioRef := some { e with paused := false } } :
                  Coord).audioState.currentTrack =
                c.audioState.currentTrack from rfl, ht] at hn
            exact absurd hn (by simp)
        · rw [if_neg ht]
          intro hn
          simp only [startNewTrack] at hn
          exact absurd hn (Option.some_ne_none i)
  | pause =>
      rcases hr : c.audioRef with _ | e
      · simpa only [step, pauseTrack, hr] using h
      · intro _
        simp [step, pauseTrack, hr]
  | stop => intro _; rfl
  | seek t =>
      rcases hr : c.audioRef with _ | e
      · simpa only [step, setCurrentTime, hr] using h
      · intro hn
        simp only [step, setCurrentTime, hr] at hn ⊢
        exact h hn
  | metadataLoaded d =>
      rcases hr : c.audioRef with _ | e
      · simpa only [step, onMetadataLoaded, hr] using h
      · intro hn
        simp only [step, onMetadataLoaded, hr] at hn ⊢
        exact h hn
  | timeUpdate t =>
      rcases hr : c.audioRef with _ | e
      · simpa only [step, onTimeUpdate, hr] using h
      · intro hn
        simp only [step, onTimeUpdate, hr] at hn ⊢
        exact h hn
  | ended =>
      rcases hr : c.audioRef with _ | e
      · simpa only [step, onEnded, hr] using h
      · intro _
        simp [step, onEnded, hr]
  | errorEvent => exact h

/-- The `idleNotPlaying` invariant holds along every run. -/
lemma idleNotPlaying_foldl (tr : List Act) :
    ∀ c : Coord, idleNotPlaying c → idleNotPlaying (tr.foldl step c) := by
  induction tr with
  | nil => intro c h; exact h
  | cons a tl ih =>
      intro c h
      exact ih (step c a) (idleNotPlaying_step c a h)

/-- Every reachable coordinator state satisfies `idleNotPlaying`. -/
lemma idleNotPlaying_run (tr : List Act) : idleNotPlaying (run tr) :=
  idleNotPlaying_foldl tr initCoord (fun _ => rfl)

/-- After `startNewTrack` exactly the freshly created element is producing
sound, provided every previously dropped element was silenced. -/
lemma activeElems_startNewTrack (u i : String) (c : Coord)
    (h : releasedSilenced c) :
    activeElems (startNewTrack u i c) =
      [{ url := u, trackId := i, paused := false,
         time := 0, metaDuration := none }] := by
  rcases hr : c.audioRef with _ | e
  · simp only [activeElems, allElems, startNewTrack, hr, Option.toList_some,
      List.filter_append]
    rw [filter_unpaused_nil c.released h]
    rfl
  · simp only [activeElems, allElems, startNewTrack, hr, Option.toList_some,
      List.filter_append]
    rw [filter_unpaused_nil c.released h]
    simp [silenceElem]

/-- Claim C1: from any reachable state whose active track is not `i` (a
different track or none), `playTrack u i` leaves the React state exactly
`{currentTrack: i, isPlaying: true, currentTime: 0, duration: 0}`, silences
and drops the previous element if there was one, and afterwards exactly one
element is producing sound — the fresh one bound to `u` and `i`. -/
theorem claim_C1_play_switch (tr : List Act) (u i : String)
    (h : (run tr).audioState.currentTrack ≠ some i) :
    (playTrack u i (run tr)).audioState =
      { currentTrack := some i, isPlaying := true,
        currentTime := 0, duration := 0 } ∧
    (∀ a, (run tr).audioRef = some a →
      silenceElem a ∈ (playTrack u i (run tr)).released) ∧
    activeElems (playTrack u i (run tr)) =
      [{ url := u, trackId := i, paused := false,
         time := 0, metaDuration := none }] := by
  have hrel : releasedSilenced (run tr) := releasedSilenced_run tr
  have hplay : playTrack u i (run tr) = startNewTrack u i (run tr) := by
    rcases hr : (run tr).audioRef with _ | e
    · simp only [playTrack, hr]
    · simp only [playTrack, hr]
      rw [if_neg h]
  refine ⟨?_, ?_, ?_⟩
  · rw [hplay]; rfl
  · intro a ha
    rw [hplay]
    simp [startNewTrack, ha]
  · rw [hplay]
    exact activeElems_startNewTrack u i (run tr) hrel

/-- Claim C1 witness: switching from a playing "track-2" to "track-1". -/
theorem claim_C1_play_switch_witness :
    (playTrack "a.mp3" "track-1" (run [.play "b.mp3" "track-2"])).audioState =
      { currentTrack := some "track-1", isPlaying := true,
        currentTime := 0, duration := 0 } ∧
    (∀ a, (run [.play "b.mp3" "track-2"]).audioRef = some a →
      silenceElem a ∈
        (playTrack "a.mp3" "track-1" (run [.play "b.mp3" "track-2"])).released) ∧
    activeElems (playTrack "a.mp3" "track-1" (run [.play "b.mp3" "track-2"])) =
      [{ url := "a.mp3", trackId := "track-1", paused := false,
         time := 0, metaDuration := none }] :=
  claim_C1_play_switch [.play "b.mp3" "track-2"] "a.mp3" "track-1" (by decide)

/-- Claim C2 counterexample: the claim quantifies over every state, but
from a state in which track-1 is already active and playing (reached by one
`play`), two further `play` calls on the same track toggle twice and end
with `isPlaying = true`, not `false`. -/
theorem claim_C2_toggle_cex :
    (run [.play "a.mp3" "track-1", .play "a.mp3" "track-1",
          .play "a.mp3" "track-1"]).audioState.isPlaying = true := by
  decide

/-- Claim C2 amended: unless track `i` is already active and playing with a
live element, two consecutive `playTrack u i` calls end with
`isPlaying = false` and `currentTrack = i`. -/
theorem claim_C2_toggle_amended (c : Coord) (u i : String)
    (h : ¬(c.audioState.currentTrack = some i ∧
           c.audioState.isPlaying = true ∧ c.audioRef.isSome = true)) :
    (playTrack u i (playTrack u i c)).audioState.isPlaying = false ∧
    (playTrack u i (playTrack u i c)).audioState.currentTrack = some i := by
  rcases hr : c.audioRef with _ | e
  · simp [playTrack, hr, startNewTrack]
  · by_cases ht : c.audioState.currentTrack = some i
    · have hp : c.audioState.isPlaying = false := by
        rcases Bool.eq_false_or_eq_true c.audioState.isPlaying with h1 | h1
        · exact absurd ⟨ht, h1, by simp [hr]⟩ h
        · exact h1
      simp [playTrack, hr, ht, hp]
    · simp [playTrack, hr, ht, startNewTrack]

/-- Claim C2 amended witness: two plays of track-1 from the initial state
end paused on track-1. -/
theorem claim_C2_toggle_amended_witness :
    (playTrack "a.mp3" "track-1"
        (playTrack "a.mp3" "track-1" initCoord)).audioState.isPlaying = false ∧
    (playTrack "a.mp3" "track-1"
        (playTrack "a.mp3" "track-1" initCoord)).audioState.currentTrack =
      some "track-1" :=
  claim_C2_toggle_amended initCoord "a.mp3" "track-1" (by decide)

/-- Claim C3 counterexample: after `playTrack` then `stopTrack` the React
state is fully reset, but the element handle is still held in `audioRef` —
the underlying resource is silenced, not released. -/
theorem claim_C3_stop_cex :
    (run [.play "a.mp3" "track-1", .stop]).audioState =
      { currentTrack := none, isPlaying := false,
        currentTime := 0, duration := 0 } ∧
    (run [.play "a.mp3" "track-1", .stop]).audioRef ≠ none := by
  decide

/-- Claim C3 amended: `stopTrack` resets the React state to the full empty
default and pauses and rewinds the current element, but keeps the handle to
it (nothing is moved to the dropped list). -/
theorem claim_C3_stop_amended (c : Coord) (e : AudioElem)
    (h : c.audioRef = some e) :
    (stopTrack c).audioState =
      { currentTrack := none, isPlaying := false,
        currentTime := 0, duration := 0 } ∧
    (stopTrack c).audioRef = some (silenceElem e) ∧
    (stopTrack c).released = c.released := by
  simp [stopTrack, h]

/-- Claim C3 amended witness: stop after one play. -/
theorem claim_C3_stop_amended_witness :
    (stopTrack (run [.play "a.mp3" "track-1"])).audioState =
      { currentTrack := none, isPlaying := false,
        currentTime := 0, duration := 0 } ∧
    (stopTrack (run [.play "a.mp3" "track-1"])).audioRef =
      some (silenceElem { url := "a.mp3", trackId := "track-1",
                          paused := false, time := 0, metaDuration := none }) ∧
    (stopTrack (run [.play "a.mp3" "track-1"])).released =
      (run [.play "a.mp3" "track-1"]).released :=
  claim_C3_stop_amended (run [.play "a.mp3" "track-1"])
    { url := "a.mp3", trackId := "track-1", paused := false,
      time := 0, metaDuration := none } (by decide)

/-- Claim C4 counterexample: the trace play, stop, seek 5, metadata 42 is
built from public operations and resource callbacks, ends with no active
track, and yet has `currentTime = 5` and `duration = 42` — the "idle
implies zeroed" invariant fails (stop keeps the element handle, so seek and
the metadata listener still mutate the state while idle). -/
theorem claim_C4_idle_cex :
    (run [.play "a.mp3" "track-1", .stop, .seek 5,
          .metadataLoaded 42]).audioState.currentTrack = none ∧
    (run [.play "a.mp3" "track-1", .stop, .seek 5,
          .metadataLoaded 42]).audioState.currentTime = 5 ∧
    (run [.play "a.mp3" "track-1", .stop, .seek 5,
          .metadataLoaded 42]).audioState.duration = 42 := by
  decide

/-- Claim C4 amended: in every reachable state, no active track implies
`isPlaying = false`; the `currentTime = 0` and `duration = 0` parts of the
claimed invariant do not hold. -/
theorem claim_C4_idle_amended (tr : List Act)
    (h : (run tr).audioState.currentTrack = none) :
    (run tr).audioState.isPlaying = false :=
  idleNotPlaying_run tr h

/-- Claim C4 amended witness: after play then stop, the idle state is not
playing. -/
theorem claim_C4_idle_amended_witness :
    (run [.play "a.mp3" "track-1", .stop]).audioState.isPlaying = false :=
  claim_C4_idle_amended [.play "a.mp3" "track-1", .stop] (by decide)

/-- Claim C5 counterexample: after play, metadata 42 and a natural end the
state still has `currentTrack = some "track-1"` and `duration = 42` — the
`ended` listener does not transition to the idle/zeroed state. -/
theorem claim_C5_ended_cex :
    (run [.play "a.mp3" "track-1", .metadataLoaded 42,
          .ended]).audioState.currentTrack = some "track-1" ∧
    (run [.play "a.mp3" "track-1", .metadataLoaded 42,
          .ended]).audioState.duration = 42 := by
  decide

/-- Claim C5 amended: when playback ends naturally while a track is
playing, the listener sets `isPlaying = false` and `currentTime = 0` but
leaves `currentTrack` and `duration` unchanged (the coordinator ends up
paused at the start of the same track, not idle). -/
theorem claim_C5_ended_amended (c : Coord) (e : AudioElem)
    (h : c.audioRef = some e) (_hp : c.audioState.isPlaying = true) :
    (onEnded c).audioState.isPlaying = false ∧
    (onEnded c).audioState.currentTime = 0 ∧
    (onEnded c).audioState.currentTrack = c.audioState.currentTrack ∧
    (onEnded c).audioState.duration = c.audioState.duration := by
  simp [onEnded, h]

/-- Claim C5 amended witness: natural end after play and metadata 42. -/
theorem claim_C5_ended_amended_witness :
    (onEnded (run [.play "a.mp3" "track-1",
        .metadataLoaded 42])).audioState.isPlaying = false ∧
    (onEnded (run [.play "a.mp3" "track-1",
        .metadataLoaded 42])).audioState.currentTime = 0 ∧
    (onEnded (run [.play "a.mp3" "track-1",
        .metadataLoaded 42])).audioState.currentTrack =
      (run [.play "a.mp3" "track-1", .metadataLoaded 42]).audioState.currentTrack ∧
    (onEnded (run [.play "a.mp3" "track-1",
        .metadataLoaded 42])).audioState.duration =
      (run [.play "a.mp3" "track-1", .metadataLoaded 42]).audioState.duration :=
  claim_C5_ended_amended (run [.play "a.mp3" "track-1", .metadataLoaded 42])
    { url := "a.mp3", trackId := "track-1", paused := false,
      time := 0, metaDuration := some 42 } (by decide) (by decide)

/-- Claim C6: from any state in which track `i` is active with a live
element, `pauseTrack` followed by `playTrack u i` resumes the very same
element and ends with `isPlaying = true` and `currentTime` unchanged from
its value just before the pause. -/
theorem claim_C6_resume (c : Coord) (e : AudioElem) (u i : String)
    (href : c.audioRef = some e)
    (htrack : c.audioState.currentTrack = some i) :
    (playTrack u i (pauseTrack c)).audioState.isPlaying = true ∧
    (playTrack u i (pauseTrack c)).audioState.currentTime =
      c.audioState.currentTime ∧
    (playTrack u i (pauseTrack c)).audioRef = some { e with paused := false } := by
  simp [pauseTrack, playTrack, href, htrack]

/-- Claim C6 witness: track-1 advanced to position 7, paused, replayed. -/
theorem claim_C6_resume_witness :
    (playTrack "a.mp3" "track-1"
        (pauseTrack (run [.play "a.mp3" "track-1",
          .timeUpdate 7]))).audioState.isPlaying = true ∧
    (playTrack "a.mp3" "track-1"
        (pauseTrack (run [.play "a.mp3" "track-1",
          .timeUpdate 7]))).audioState.currentTime =
      (run [.play "a.mp3" "track-1", .timeUpdate 7]).audioState.currentTime ∧
    (playTrack "a.mp3" "track-1"
        (pauseTrack (run [.play "a.mp3" "track-1", .timeUpdate 7]))).audioRef =
      some { url := "a.mp3", trackId := "track-1", paused := false,
             time := 7, metaDuration := none } :=
  claim_C6_resume (run [.play "a.mp3" "track-1", .timeUpdate 7])
    { url := "a.mp3", trackId := "track-1", paused := false,
      time := 7, metaDuration := none } "a.mp3" "track-1"
    (by decide) (by decide)

/-- Claim C7 counterexample: with track-1 active and `duration = 10`,
`setCurrentTime 15` leaves the state's `currentTime` at the raw value `15`,
not at the claimed clamp `durationSeconds = 10`. -/
theorem claim_C7_seek_clamp_cex :
    (run [.play "a.mp3" "track-1", .metadataLoaded 10,
          .seek 15]).audioState.duration = 10 ∧
    (run [.play "a.mp3" "track-1", .metadataLoaded 10,
          .seek 15]).audioState.currentTime = 15 := by
  decide

/-- Claim C7 amended: `setCurrentTime t` never rejects an out-of-range
target — the element's position is clamped to `[0, duration]` by the
browser, but the state's `currentTime` is set to the raw requested value
(it is resynchronised only when a later `timeupdate` fires). -/
theorem claim_C7_seek_amended (c : Coord) (e : AudioElem) (t d : ℚ)
    (href : c.audioRef = some e) (hd : e.metaDuration = some d) :
    (setCurrentTime t c).audioState.currentTime = t ∧
    (setCurrentTime t c).audioRef =
      some { e with time := max 0 (min t d) } := by
  simp [setCurrentTime, setElemTime, href, hd]

/-- Claim C7 amended witness: seeking to 15 with duration 10 stores 15 in
the state and 10 in the element. -/
theorem claim_C7_seek_amended_witness :
    (setCurrentTime 15
        (run [.play "a.mp3" "track-1",
          .metadataLoaded 10])).audioState.currentTime = 15 ∧
    (setCurrentTime 15 (run [.play "a.mp3" "track-1", .metadataLoaded 10])).audioRef =
      some { url := "a.mp3", trackId := "track-1", paused := false,
             time := max 0 (min 15 10), metaDuration := some 10 } :=
  claim_C7_seek_amended (run [.play "a.mp3" "track-1", .metadataLoaded 10])
    { url := "a.mp3", trackId := "track-1", paused := false,
      time := 0, metaDuration := some 10 } 15 10 (by decide) (by decide)

/-- Claim C8 counterexample: after play then stop no track is active, yet
`setCurrentTime 5` is not a no-op — the retained element handle lets it
change the state. -/
theorem claim_C8_seek_idle_cex :
    (run [.play "a.mp3" "track-1", .stop]).audioState.currentTrack = none ∧
    setCurrentTime 5 (run [.play "a.mp3" "track-1", .stop]) ≠
      run [.play "a.mp3" "track-1", .stop] := by
  decide

/-- Claim C8 amended: `setCurrentTime` is a no-op exactly when no element
handle exists (as in any state reached before the first play); after a play
followed by stop the handle survives, so seek still mutates the state. -/
theorem claim_C8_seek_idle_amended (c : Coord) (t : ℚ)
    (h : c.audioRef = none) :
    setCurrentTime t c = c := by
  simp [setCurrentTime, h]

/-- Claim C8 amended witness: seeking in the initial state does nothing. -/
theorem claim_C8_seek_idle_amended_witness :
    setCurrentTime 5 initCoord = initCoord :=
  claim_C8_seek_idle_amended initCoord 5 (by decide)

/-- Claim C9 counterexample: after a play, a browser `error` event (the
resource failed to load) leaves `isPlaying = true` — no error listener is
registered, so the failure never surfaces in the state. -/
theorem claim_C9_error_cex :
    (run [.play "a.mp3" "track-1", .errorEvent]).audioState.isPlaying = true := by
  decide

/-- Claim C9 amended: `playTrack` of a non-active track never throws (it is
a total function ending with `isPlaying = true`), but the code registers no
`error` listener, so a resource failure leaves the coordinator state
completely unchanged — still claiming `isPlaying = true`, not the claimed
`isPlaying = false`. -/
theorem claim_C9_error_amended (c : Coord) (u i : String)
    (h : c.audioState.currentTrack ≠ some i) :
    (playTrack u i c).audioState.isPlaying = true ∧
    onErrorEvent (playTrack u i c) = playTrack u i c := by
  constructor
  · rcases hr : c.audioRef with _ | e
    · simp [playTrack, hr, startNewTrack]
    · simp only [playTrack, hr]
      rw [if_neg h]
      rfl
  · rfl

/-- Claim C9 amended witness: a failing play of track-1 from the initial
state. -/
theorem claim_C9_error_amended_witness :
    (playTrack "a.mp3" "track-1" initCoord).audioState.isPlaying = true ∧
    onErrorEvent (playTrack "a.mp3" "track-1" initCoord) =
      playTrack "a.mp3" "track-1" initCoord :=
  claim_C9_error_amended initCoord "a.mp3" "track-1" (by decide)

/-- Claim C10: `useAudio` outside a provider always fails with exactly the
error message of the source, and inside a provider it returns exactly the
provider's context value. -/
theorem claim_C10_useAudio (α : Type) (ctx : α) :
    useAudio (some ctx) = Except.ok ctx ∧
    useAudio (none : Option α) =
      Except.error "useAudio must be used within an AudioProvider" :=
  ⟨rfl, rfl⟩
